import Mathlib

/-!
Shallow embedding of the room-automation controller in `src/src/main.cpp`
(ESP32 sketch: RFID door access, ultrasonic occupancy, DHT temperature,
light and fan control with a web interface).

Hardware I/O (digitalWrite, LCD, buzzer, servo, HTTP) is modelled by its
effect on the global state block plus explicit observable outcomes:
`lerRfid` returns the feedback class it signals, and the web control
functions return a flag recording that an HTTP redirect was emitted.
`millis()` is modelled as an unbounded monotone counter supplied to each
function that reads it; the 32-bit wraparound of `unsigned long` after
49.7 days is outside the scope of the claims.
-/

namespace RoomAuto

/-- `DISTANCIA_PRESENCA_CM = 20`, the presence threshold in cm. -/
def DISTANCIA_PRESENCA_CM : Int := 20

/-- `tempoMinimoPresenca = 5000`, minimum dwell in ms before auto light. -/
def tempoMinimoPresenca : Nat := 5000

/-- `intervaloLeituraTemp = 5000`, ms between temperature samples. -/
def intervaloLeituraTemp : Nat := 5000

/-- `tempacionamento = 25`, temperature at which the auto fan turns on. -/
def tempacionamento : Int := 25

/-- `tempdesligamento = 22`, temperature below which the auto fan turns off. -/
def tempdesligamento : Int := 22

/-- The authorized user table `usuariosAutorizados`: 4-byte RFID UID plus name. -/
def usuariosAutorizados : List (List Nat × String) :=
  [([207, 219, 197, 196], "Anne Beatriz"),
   ([30, 157, 226, 105], "Victor Augusto")]

/-- The linear scan over `usuariosAutorizados` with `memcmp` equality. -/
def uidAutorizado (uid : List Nat) : Bool :=
  usuariosAutorizados.any (fun u => uid == u.1)

/-- The global mutable state block of the sketch. -/
structure SystemState where
  portaAberta : Bool
  ultimoUID : List Nat
  ventilacaoState : Bool
  iluminacaoState : Bool
  ocupacao : Bool
  temperaturaAtual : Int
  ventilacaoAutomaticaState : Bool
  millisAnterior : Nat
  tempoInicioPresenca : Nat
  luzDesligadaManualmente : Bool
  mensagemSistema : String
deriving DecidableEq, Repr

/-- The state after `setup()`: door closed, everything off, timers zero. -/
def initState : SystemState :=
  { portaAberta := false
    ultimoUID := [0, 0, 0, 0]
    ventilacaoState := false
    iluminacaoState := false
    ocupacao := false
    temperaturaAtual := 0
    ventilacaoAutomaticaState := false
    millisAnterior := 0
    tempoInicioPresenca := 0
    luzDesligadaManualmente := false
    mensagemSistema := "" }

/-- System messages written to `mensagemSistema`. -/
def msgLuzOk : String := "Luz ligada com sucesso."

def msgLuzVazia : String :=
  "⚠️ N&atilde;o &eacute; poss&iacute;vel ligar a luz: sala est&aacute; vazia."

def msgLuzOff : String := "Luz desligada."

def msgVentOk : String := "Ventilacao manual ligada com sucesso."

def msgVentVazia : String :=
  "⚠️ N&atilde;o &eacute; poss&iacute;vel ligar a ventoinha: sala est&aacute; vazia."

def msgVentOff : String := "Ventilacao manual desligada."

def msgVentAutoOn : String :=
  "Ventoinha LIGADA automaticamente por temperatura alta."

def msgVentAutoOff : String := "Ventoinha DESLIGADA automaticamente."

def msgAusencia : String := "Luz e ventoinha manual desligadas por ausência."

/-- `controleLuz(bool ligar)`: web/manual light control. Turning on requires
`ocupacao`; turning off while occupied sets `luzDesligadaManualmente`.
The returned `Bool` records that `redirectToRoot()` emitted an HTTP 302. -/
def controleLuz (ligar : Bool) (s : SystemState) : SystemState × Bool :=
  let s1 :=
    if ligar then
      if s.ocupacao then
        { s with iluminacaoState := true
                 luzDesligadaManualmente := false
                 mensagemSistema := msgLuzOk }
      else
        { s with mensagemSistema := msgLuzVazia }
    else
      if s.ocupacao then
        { s with iluminacaoState := false
                 luzDesligadaManualmente := true
                 mensagemSistema := msgLuzOff }
      else
        { s with iluminacaoState := false
                 mensagemSistema := msgLuzOff }
  (s1, true)

/-- `controleVentilacao(bool ligar)`: web/manual fan control; turning on
requires `ocupacao`. The `Bool` records the HTTP 302 redirect. -/
def controleVentilacao (ligar : Bool) (s : SystemState) : SystemState × Bool :=
  let s1 :=
    if ligar then
      if s.ocupacao then
        { s with ventilacaoState := true, mensagemSistema := msgVentOk }
      else
        { s with mensagemSistema := msgVentVazia }
    else
      { s with ventilacaoState := false, mensagemSistema := msgVentOff }
  (s1, true)

/-- `instantPresent`: `0 < distancia && distancia <= DISTANCIA_PRESENCA_CM`. -/
def presencaDe (distancia : Int) : Bool :=
  decide (0 < distancia ∧ distancia ≤ DISTANCIA_PRESENCA_CM)

/-- `atualizarEstadoOcupacao()`: reads the ultrasonic distance, sets
`ocupacao`, manages the dwell timer, and auto-activates the light via
`controleLuz(true)` once presence lasted `tempoMinimoPresenca`. The `Bool`
records whether an HTTP redirect was emitted (by the nested `controleLuz`). -/
def atualizarEstadoOcupacao (distancia : Int) (now : Nat) (s : SystemState) :
    SystemState × Bool :=
  let presencaAtual := presencaDe distancia
  if presencaAtual then
    let inicio :=
      if s.tempoInicioPresenca = 0 then now else s.tempoInicioPresenca
    let s2 :=
      { s with ocupacao := presencaAtual, tempoInicioPresenca := inicio }
    if tempoMinimoPresenca ≤ now - inicio ∧
        s2.iluminacaoState = false ∧ s2.luzDesligadaManualmente = false then
      controleLuz true s2
    else
      (s2, false)
  else
    ({ s with ocupacao := presencaAtual
              tempoInicioPresenca := 0
              luzDesligadaManualmente := false },
     false)

/-- The distinguishable feedback a credential presentation produces
(LCD text plus buzzer pattern). -/
inductive RfidOutcome where
  | opened
  | closed
  | heldByAnother
  | denied
deriving DecidableEq, Repr

/-- `lerRfid()` for a cycle on which a card with `uid` was presented
(no card present is a no-op and has no event). Authorization is the
linear scan; an open door is closed only by the UID stored in
`ultimoUID`. Line 308 of the source sets `millisAnterior = millis()`
at the end of every presentation, authorized or not. -/
def lerRfid (uid : List Nat) (now : Nat) (s : SystemState) :
    SystemState × RfidOutcome :=
  if uidAutorizado uid then
    if s.portaAberta = false then
      ({ s with portaAberta := true, ultimoUID := uid, millisAnterior := now },
       RfidOutcome.opened)
    else if uid = s.ultimoUID then
      ({ s with portaAberta := false, millisAnterior := now },
       RfidOutcome.closed)
    else
      ({ s with millisAnterior := now }, RfidOutcome.heldByAnother)
  else
    ({ s with millisAnterior := now }, RfidOutcome.denied)

/-- `atualizarDisplayTempUmi()`: non-blocking timer; on a due cycle it
stores `millis()` into `millisAnterior` and, when the DHT read is valid
(`leitura = some t`), stores the truncated temperature. An invalid read
(`none`) keeps the stale temperature. -/
def atualizarDisplayTempUmi (now : Nat) (leitura : Option Int)
    (s : SystemState) : SystemState :=
  if now - s.millisAnterior < intervaloLeituraTemp then s
  else
    match leitura with
    | none => { s with millisAnterior := now }
    | some t => { s with millisAnterior := now, temperaturaAtual := t }

/-- `controleAutomaticoVentoinha()`: two-threshold hysteresis on
`temperaturaAtual`. -/
def controleAutomaticoVentoinha (s : SystemState) : SystemState :=
  if tempacionamento ≤ s.temperaturaAtual ∧
      s.ventilacaoAutomaticaState = false then
    { s with ventilacaoAutomaticaState := true
             mensagemSistema := msgVentAutoOn }
  else if s.temperaturaAtual < tempdesligamento ∧
      s.ventilacaoAutomaticaState = true then
    { s with ventilacaoAutomaticaState := false
             mensagemSistema := msgVentAutoOff }
  else s

/-- `verificarDesligamentoPorAusencia()`: forces the light and the manual
fan off when the room is empty. -/
def verificarDesligamentoPorAusencia (s : SystemState) : SystemState :=
  if s.ocupacao = false ∧
      (s.iluminacaoState = true ∨ s.ventilacaoState = true) then
    { s with iluminacaoState := false
             ventilacaoState := false
             mensagemSistema := msgAusencia }
  else s

/-- `handleRoot()`: serving the status page clears `mensagemSistema`
after rendering it once. -/
def handleRoot (s : SystemState) : SystemState :=
  if s.mensagemSistema = "" then s else { s with mensagemSistema := "" }

/-- Every way the loop (or a web request) mutates the state block. -/
inductive Event where
  | rfid (uid : List Nat) (now : Nat)
  | ocupacaoSample (distancia : Int) (now : Nat)
  | tempSample (now : Nat) (leitura : Option Int)
  | ventAuto
  | ausencia
  | webLuz (ligar : Bool)
  | webVentilacao (ligar : Bool)
  | webRoot

/-- One mutation of the global state block. -/
def step (e : Event) (s : SystemState) : SystemState :=
  match e with
  | Event.rfid uid now => (lerRfid uid now s).1
  | Event.ocupacaoSample d now => (atualizarEstadoOcupacao d now s).1
  | Event.tempSample now r => atualizarDisplayTempUmi now r s
  | Event.ventAuto => controleAutomaticoVentoinha s
  | Event.ausencia => verificarDesligamentoPorAusencia s
  | Event.webLuz b => (controleLuz b s).1
  | Event.webVentilacao b => (controleVentilacao b s).1
  | Event.webRoot => handleRoot s

/-- States reachable from `initState` by any interleaving of events. -/
inductive Reachable : SystemState → Prop where
  | init : Reachable initState
  | next : ∀ (s : SystemState) (e : Event), Reachable s → Reachable (step e s)

/-- C5: the automatic ventilation controller turns the fan on exactly when
`temperaturaAtual ≥ tempacionamento` and the fan is off, turns it off
exactly when `temperaturaAtual < tempdesligamento` and the fan is on, and
inside the band `tempdesligamento ≤ temperaturaAtual < tempacionamento`
the fan state never changes. -/
theorem ventoinha_auto_histerese (s : SystemState) :
    ((s.ventilacaoAutomaticaState = false ∧
        (controleAutomaticoVentoinha s).ventilacaoAutomaticaState = true) ↔
      (tempacionamento ≤ s.temperaturaAtual ∧
        s.ventilacaoAutomaticaState = false)) ∧
    ((s.ventilacaoAutomaticaState = true ∧
        (controleAutomaticoVentoinha s).ventilacaoAutomaticaState = false) ↔
      (s.temperaturaAtual < tempdesligamento ∧
        s.ventilacaoAutomaticaState = true)) ∧
    (tempdesligamento ≤ s.temperaturaAtual →
      s.temperaturaAtual < tempacionamento →
      (controleAutomaticoVentoinha s).ventilacaoAutomaticaState =
        s.ventilacaoAutomaticaState) := by
  unfold controleAutomaticoVentoinha tempacionamento tempdesligamento
  split_ifs <;> simp_all

/-- C5 witness: at temperature 23 (inside the band) with the fan on, the
state is unchanged. -/
theorem ventoinha_auto_histerese_witness :
    (controleAutomaticoVentoinha
        { initState with temperaturaAtual := 23,
                         ventilacaoAutomaticaState := true
        }).ventilacaoAutomaticaState =
      ({ initState with temperaturaAtual := 23,
                        ventilacaoAutomaticaState := true
        } : SystemState).ventilacaoAutomaticaState :=
  (ventoinha_auto_histerese _).2.2 (by decide) (by decide)

/-- C6: a manual "on" command for the light or the manual fan while
`ocupacao = false` changes no actuator state (light, manual fan, auto fan,
door) and writes the "sala vazia" rejection notice; a manual "off"
command succeeds in every state, occupied or not, leaving the
corresponding actuator off. -/
theorem manual_on_rejeitado_sala_vazia (s : SystemState) :
    (s.ocupacao = false →
      ((controleLuz true s).1.iluminacaoState = s.iluminacaoState ∧
        (controleLuz true s).1.ventilacaoState = s.ventilacaoState ∧
        (controleLuz true s).1.ventilacaoAutomaticaState =
          s.ventilacaoAutomaticaState ∧
        (controleLuz true s).1.portaAberta = s.portaAberta ∧
        (controleLuz true s).1.mensagemSistema = msgLuzVazia) ∧
      ((controleVentilacao true s).1.iluminacaoState = s.iluminacaoState ∧
        (controleVentilacao true s).1.ventilacaoState = s.ventilacaoState ∧
        (controleVentilacao true s).1.ventilacaoAutomaticaState =
          s.ventilacaoAutomaticaState ∧
        (controleVentilacao true s).1.portaAberta = s.portaAberta ∧
        (controleVentilacao true s).1.mensagemSistema = msgVentVazia)) ∧
    ((controleLuz false s).1.iluminacaoState = false ∧
      (controleVentilacao false s).1.ventilacaoState = false) := by
  constructor
  · intro h
    unfold controleLuz controleVentilacao
    simp [h]
  · unfold controleLuz controleVentilacao
    split_ifs <;> simp_all

/-- C6 witness: in the initial (empty) room the light-on command is
rejected with the notice and the light stays off; in an occupied room
with the light on, the manual off command still succeeds. -/
theorem manual_on_rejeitado_sala_vazia_witness :
    ((controleLuz true initState).1.iluminacaoState =
        initState.iluminacaoState ∧
      (controleLuz true initState).1.mensagemSistema = msgLuzVazia) ∧
    (controleLuz false
        { initState with ocupacao := true, iluminacaoState := true
        }).1.iluminacaoState = false :=
  ⟨⟨((manual_on_rejeitado_sala_vazia initState).1 (by decide)).1.1,
    ((manual_on_rejeitado_sala_vazia initState).1 (by decide)).1.2.2.2.2⟩,
   (manual_on_rejeitado_sala_vazia
      { initState with ocupacao := true, iluminacaoState := true }).2.1⟩

/-- C7: an unauthorized credential produces the `denied` outcome and
leaves door state, `ultimoUID`, every actuator state, the occupancy flag
and the system message unchanged. -/
theorem rfid_negado_sem_mudanca (s : SystemState) (uid : List Nat)
    (now : Nat) (h : uidAutorizado uid = false) :
    (lerRfid uid now s).2 = RfidOutcome.denied ∧
    (lerRfid uid now s).1.portaAberta = s.portaAberta ∧
    (lerRfid uid now s).1.ultimoUID = s.ultimoUID ∧
    (lerRfid uid now s).1.iluminacaoState = s.iluminacaoState ∧
    (lerRfid uid now s).1.ventilacaoState = s.ventilacaoState ∧
    (lerRfid uid now s).1.ventilacaoAutomaticaState =
      s.ventilacaoAutomaticaState ∧
    (lerRfid uid now s).1.ocupacao = s.ocupacao ∧
    (lerRfid uid now s).1.mensagemSistema = s.mensagemSistema := by
  unfold lerRfid
  simp [h]

/-- C7 witness: the all-zero UID is not authorized and is denied. -/
theorem rfid_negado_sem_mudanca_witness :
    (lerRfid [0, 0, 0, 0] 42 initState).2 = RfidOutcome.denied ∧
      (lerRfid [0, 0, 0, 0] 42 initState).1.portaAberta =
        initState.portaAberta :=
  ⟨(rfid_negado_sem_mudanca initState [0, 0, 0, 0] 42 (by decide)).1,
   (rfid_negado_sem_mudanca initState [0, 0, 0, 0] 42 (by decide)).2.1⟩

/-- C8: when the room is unoccupied and the light or the manual fan is
on, the reclaimer forces both off and writes the reclamation notice,
leaving `luzDesligadaManualmente` and the automatic fan unchanged. -/
theorem ausencia_desliga_luz_e_ventoinha (s : SystemState)
    (h1 : s.ocupacao = false)
    (h2 : s.iluminacaoState = true ∨ s.ventilacaoState = true) :
    (verificarDesligamentoPorAusencia s).iluminacaoState = false ∧
    (verificarDesligamentoPorAusencia s).ventilacaoState = false ∧
    (verificarDesligamentoPorAusencia s).mensagemSistema = msgAusencia ∧
    (verificarDesligamentoPorAusencia s).luzDesligadaManualmente =
      s.luzDesligadaManualmente ∧
    (verificarDesligamentoPorAusencia s).ventilacaoAutomaticaState =
      s.ventilacaoAutomaticaState := by
  unfold verificarDesligamentoPorAusencia
  simp [h1, h2]

/-- C8 witness: empty room with the light on gets reclaimed. -/
theorem ausencia_desliga_luz_e_ventoinha_witness :
    (verificarDesligamentoPorAusencia
        { initState with iluminacaoState := true }).iluminacaoState =
        false ∧
      (verificarDesligamentoPorAusencia
        { initState with iluminacaoState := true }).mensagemSistema =
        msgAusencia :=
  ⟨(ausencia_desliga_luz_e_ventoinha _ (by decide) (Or.inl (by decide))).1,
   (ausencia_desliga_luz_e_ventoinha _ (by decide)
      (Or.inl (by decide))).2.2.1⟩

theorem controleLuz_portaAberta (b : Bool) (s : SystemState) :
    (controleLuz b s).1.portaAberta = s.portaAberta := by
  unfold controleLuz
  split_ifs <;> rfl

theorem atualizarEstadoOcupacao_portaAberta (d : Int) (now : Nat)
    (s : SystemState) :
    (atualizarEstadoOcupacao d now s).1.portaAberta = s.portaAberta := by
  simp only [atualizarEstadoOcupacao]
  split_ifs <;> simp [controleLuz_portaAberta]

/-- Only an RFID presentation can change the door state: every other
event preserves `portaAberta`. -/
theorem portaAberta_step_sem_rfid (e : Event) (s : SystemState)
    (h : ∀ uid now, e ≠ Event.rfid uid now) :
    (step e s).portaAberta = s.portaAberta := by
  cases e with
  | rfid uid now => exact absurd rfl (h uid now)
  | ocupacaoSample d now =>
      exact atualizarEstadoOcupacao_portaAberta d now s
  | tempSample now r =>
      simp only [step, atualizarDisplayTempUmi]
      split_ifs <;> cases r <;> simp
  | ventAuto =>
      simp only [step, controleAutomaticoVentoinha]
      split_ifs <;> simp
  | ausencia =>
      simp only [step, verificarDesligamentoPorAusencia]
      split_ifs <;> simp
  | webLuz b =>
      exact controleLuz_portaAberta b s
  | webVentilacao b =>
      simp only [step, controleVentilacao]
      split_ifs <;> simp
  | webRoot =>
      simp only [step, handleRoot]
      split_ifs <;> simp

/-- C1: while the door is open, the holder's credential closes it, any
other authorized credential is rejected as `heldByAnother` with door
state and `ultimoUID` unchanged, a presentation closes the door only if
it matches `ultimoUID`, unlocking records the presenting credential in
`ultimoUID`, and no event other than an RFID presentation changes the
door state. -/
theorem porta_fecha_somente_pelo_portador (s : SystemState)
    (uid : List Nat) (now : Nat) (_hr : Reachable s)
    (hopen : s.portaAberta = true) (hauth : uidAutorizado uid = true) :
    (uid = s.ultimoUID →
      (lerRfid uid now s).1.portaAberta = false ∧
      (lerRfid uid now s).2 = RfidOutcome.closed) ∧
    (uid ≠ s.ultimoUID →
      (lerRfid uid now s).2 = RfidOutcome.heldByAnother ∧
      (lerRfid uid now s).1.portaAberta = s.portaAberta ∧
      (lerRfid uid now s).1.ultimoUID = s.ultimoUID) ∧
    ((lerRfid uid now s).1.portaAberta = false → uid = s.ultimoUID) ∧
    (∀ (s0 : SystemState) (u0 : List Nat) (n0 : Nat),
      s0.portaAberta = false → uidAutorizado u0 = true →
      (lerRfid u0 n0 s0).1.portaAberta = true ∧
      (lerRfid u0 n0 s0).1.ultimoUID = u0) ∧
    (∀ e : Event, (step e s).portaAberta ≠ s.portaAberta →
      ∃ u n, e = Event.rfid u n) := by
  refine ⟨?_, ?_, ?_, ?_, ?_⟩
  · intro he
    subst he
    unfold lerRfid
    simp [hauth, hopen]
  · intro he
    unfold lerRfid
    simp [hauth, hopen, he]
  · intro hclosed
    by_contra hne
    unfold lerRfid at hclosed
    simp [hauth, hopen, hne] at hclosed
  · intro s0 u0 n0 h0 ha0
    unfold lerRfid
    simp [ha0, h0]
  · intro e he
    by_contra hne
    push_neg at hne
    exact he (portaAberta_step_sem_rfid e s (fun u n h => hne u n h))

/-- C1 witness: after Anne Beatriz opens the door from the initial
state, presenting her card again closes it. -/
theorem porta_fecha_somente_pelo_portador_witness :
    (lerRfid [207, 219, 197, 196] 20
        (step (Event.rfid [207, 219, 197, 196] 10) initState)).1.portaAberta =
      false :=
  ((porta_fecha_somente_pelo_portador
      (step (Event.rfid [207, 219, 197, 196] 10) initState)
      [207, 219, 197, 196] 20
      (Reachable.next initState (Event.rfid [207, 219, 197, 196] 10)
        Reachable.init)
      (by decide) (by decide)).1 (by decide)).1

/-- C3: `atualizarEstadoOcupacao` turns the light on exactly when the
sample shows presence, the dwell requirement (measured from the possibly
just-recorded `tempoInicioPresenca`) is met, the light is off and the
manual-override flag is clear; in particular while the flag is set the
light state is never changed by the occupancy update. -/
theorem luz_automatica_condicoes (s : SystemState) (d : Int) (now : Nat) :
    ((s.iluminacaoState = false ∧
        (atualizarEstadoOcupacao d now s).1.iluminacaoState = true) ↔
      (presencaDe d = true ∧
        tempoMinimoPresenca ≤
          now - (if s.tempoInicioPresenca = 0 then now
                 else s.tempoInicioPresenca) ∧
        s.iluminacaoState = false ∧
        s.luzDesligadaManualmente = false)) ∧
    (s.luzDesligadaManualmente = true →
      (atualizarEstadoOcupacao d now s).1.iluminacaoState =
        s.iluminacaoState) := by
  simp only [atualizarEstadoOcupacao, controleLuz]
  by_cases hp : presencaDe d = true <;>
    by_cases h0 : s.tempoInicioPresenca = 0 <;>
      by_cases hl : s.iluminacaoState = false <;>
        by_cases hm : s.luzDesligadaManualmente = false <;>
          simp [hp, h0, hl, hm, tempoMinimoPresenca] <;>
            split_ifs <;> simp_all

/-- C3 witness: with a 10 cm sample, dwell begun at 3 ms, current time
6000 ms, light off and the flag clear, the light turns on. -/
theorem luz_automatica_condicoes_witness :
    ({ initState with tempoInicioPresenca := 3 } :
        SystemState).iluminacaoState = false ∧
      (atualizarEstadoOcupacao 10 6000
        { initState with tempoInicioPresenca := 3 }).1.iluminacaoState =
        true :=
  (luz_automatica_condicoes { initState with tempoInicioPresenca := 3 }
      10 6000).1.mpr (by decide)

/-- C9 counterexample: the claim that a credential event leaves the
temperature-sampling timer unchanged is false: presenting Anne
Beatriz's card at time 7777 from the initial state changes
`millisAnterior` from 0 to 7777. -/
theorem rfid_altera_timer_contraexemplo :
    (lerRfid [207, 219, 197, 196] 7777 initState).1.millisAnterior ≠
      initState.millisAnterior := by decide

/-- C9 amended: processing a credential presentation sets the
temperature-sampling timer `millisAnterior` to the current time
(postponing the next temperature read) and leaves every other variable
outside the access controller (actuators, occupancy, dwell timer,
override flag, temperature, system message) unchanged. -/
theorem rfid_atualiza_timer_temperatura (s : SystemState)
    (uid : List Nat) (now : Nat) :
    (lerRfid uid now s).1.millisAnterior = now ∧
    (lerRfid uid now s).1.iluminacaoState = s.iluminacaoState ∧
    (lerRfid uid now s).1.ventilacaoState = s.ventilacaoState ∧
    (lerRfid uid now s).1.ventilacaoAutomaticaState =
      s.ventilacaoAutomaticaState ∧
    (lerRfid uid now s).1.ocupacao = s.ocupacao ∧
    (lerRfid uid now s).1.tempoInicioPresenca = s.tempoInicioPresenca ∧
    (lerRfid uid now s).1.luzDesligadaManualmente =
      s.luzDesligadaManualmente ∧
    (lerRfid uid now s).1.temperaturaAtual = s.temperaturaAtual ∧
    (lerRfid uid now s).1.mensagemSistema = s.mensagemSistema := by
  unfold lerRfid
  split_ifs <;> simp

/-- C10: every automatic light activation goes through
`controleLuz(true)`, so it overwrites `mensagemSistema` with the
manual-success message (discarding whatever unread message was there)
and emits an HTTP redirect even though no web command was issued. -/
theorem luz_automatica_sobrescreve_mensagem (s : SystemState) (d : Int)
    (now : Nat) (hp : presencaDe d = true)
    (ht : s.tempoInicioPresenca ≠ 0)
    (hd : tempoMinimoPresenca ≤ now - s.tempoInicioPresenca)
    (hl : s.iluminacaoState = false)
    (hm : s.luzDesligadaManualmente = false) :
    (atualizarEstadoOcupacao d now s).1.mensagemSistema = msgLuzOk ∧
    (atualizarEstadoOcupacao d now s).2 = true ∧
    (atualizarEstadoOcupacao d now s).1.iluminacaoState = true := by
  unfold atualizarEstadoOcupacao controleLuz
  simp [hp, ht, hl, hm, hd]

/-- C10 witness: an automatic activation at time 6000 (dwell since 3)
overwrites a pending reclamation notice with the manual-success message
and emits a redirect. -/
theorem luz_automatica_sobrescreve_mensagem_witness :
    (atualizarEstadoOcupacao 10 6000
        { initState with tempoInicioPresenca := 3,
                         mensagemSistema := msgAusencia
        }).1.mensagemSistema = msgLuzOk ∧
      (atualizarEstadoOcupacao 10 6000
        { initState with tempoInicioPresenca := 3,
                         mensagemSistema := msgAusencia
        }).2 = true :=
  ⟨(luz_automatica_sobrescreve_mensagem _ 10 6000 (by decide) (by decide)
      (by decide) (by decide) (by decide)).1,
   (luz_automatica_sobrescreve_mensagem _ 10 6000 (by decide) (by decide)
      (by decide) (by decide) (by decide)).2.1⟩

/-- Every event preserves the implication "manual-override flag set →
light off". -/
theorem luzInv_step (e : Event) (s : SystemState)
    (h : s.luzDesligadaManualmente = true → s.iluminacaoState = false) :
    (step e s).luzDesligadaManualmente = true →
      (step e s).iluminacaoState = false := by
  cases e with
  | rfid uid now =>
      simp only [step, lerRfid]
      split_ifs <;> exact h
  | ocupacaoSample d now =>
      simp only [step, atualizarEstadoOcupacao, controleLuz]
      split_ifs <;> simp_all
  | tempSample now r =>
      simp only [step, atualizarDisplayTempUmi]
      split_ifs
      · exact h
      · cases r <;> exact h
  | ventAuto =>
      simp only [step, controleAutomaticoVentoinha]
      split_ifs <;> exact h
  | ausencia =>
      simp only [step, verificarDesligamentoPorAusencia]
      split_ifs <;> simp_all
  | webLuz b =>
      simp only [step, controleLuz]
      split_ifs <;> simp_all
  | webVentilacao b =>
      simp only [step, controleVentilacao]
      split_ifs <;> exact h
  | webRoot =>
      simp only [step, handleRoot]
      split_ifs <;> exact h

/-- C2: in every reachable state the manual-override flag implies the
light is off; moreover, from any reachable state an occupancy sample
with no presence clears the flag, and a successful manual light-on
(room occupied) clears the flag. -/
theorem luz_override_invariante (s : SystemState) (hr : Reachable s) :
    (s.luzDesligadaManualmente = true → s.iluminacaoState = false) ∧
    (∀ (d : Int) (now : Nat), presencaDe d = false →
      (atualizarEstadoOcupacao d now s).1.luzDesligadaManualmente =
        false) ∧
    (s.ocupacao = true →
      (controleLuz true s).1.luzDesligadaManualmente = false) := by
  refine ⟨?_, ?_, ?_⟩
  · induction hr with
    | init => simp [initState]
    | next s e _ ih => exact luzInv_step e s ih
  · intro d now hp
    simp only [atualizarEstadoOcupacao]
    simp [hp]
  · intro hocc
    simp only [controleLuz]
    simp [hocc]

/-- C2 witness: entering (sample at 10 cm) then switching the light off
manually reaches a state with the flag set; the invariant gives that the
light is off there, and a later empty sample clears the flag. -/
theorem luz_override_invariante_witness :
    (step (Event.webLuz false)
        (step (Event.ocupacaoSample 10 100) initState)).iluminacaoState =
      false ∧
    (atualizarEstadoOcupacao 50 200
        (step (Event.webLuz false)
          (step (Event.ocupacaoSample 10 100)
            initState))).1.luzDesligadaManualmente = false :=
  ⟨(luz_override_invariante _
      (Reachable.next _ _ (Reachable.next _ _ Reachable.init))).1
      (by decide),
   (luz_override_invariante _
      (Reachable.next _ _ (Reachable.next _ _ Reachable.init))).2.1
      50 200 (by decide)⟩

/-- The dwell timer written by one occupancy sample. -/
theorem atualizarEstadoOcupacao_tempoInicio (d : Int) (now : Nat)
    (s : SystemState) :
    (atualizarEstadoOcupacao d now s).1.tempoInicioPresenca =
      if presencaDe d = true then
        (if s.tempoInicioPresenca = 0 then now else s.tempoInicioPresenca)
      else 0 := by
  simp only [atualizarEstadoOcupacao, controleLuz]
  split_ifs <;> simp_all

/-- Folding `atualizarEstadoOcupacao` over a list of
(distance, millis) samples, in order. -/
def runOcupacao (amostras : List (Int × Nat)) (s : SystemState) :
    SystemState :=
  match amostras with
  | [] => s
  | a :: resto => runOcupacao resto (atualizarEstadoOcupacao a.1 a.2 s).1

/-- If the dwell timer is nonzero after a run of samples, either it was
already nonzero and every sample showed presence, or it was recorded at
some present sample and every later sample showed presence. -/
theorem runOcupacao_tempoInicio (amostras : List (Int × Nat))
    (s : SystemState)
    (h : (runOcupacao amostras s).tempoInicioPresenca ≠ 0) :
    ((runOcupacao amostras s).tempoInicioPresenca =
        s.tempoInicioPresenca ∧ s.tempoInicioPresenca ≠ 0 ∧
        ∀ a ∈ amostras, presencaDe a.1 = true) ∨
    (∃ l1 a l2, amostras = l1 ++ a :: l2 ∧ presencaDe a.1 = true ∧
      (runOcupacao amostras s).tempoInicioPresenca = a.2 ∧
      ∀ b ∈ l2, presencaDe b.1 = true) := by
  induction amostras generalizing s with
  | nil => exact Or.inl ⟨rfl, h, by simp⟩
  | cons a resto ih =>
      have hstep := atualizarEstadoOcupacao_tempoInicio a.1 a.2 s
      have hrun : runOcupacao (a :: resto) s =
          runOcupacao resto (atualizarEstadoOcupacao a.1 a.2 s).1 := rfl
      rw [hrun] at h ⊢
      rcases ih (atualizarEstadoOcupacao a.1 a.2 s).1 h with
        ⟨heq, hne, hall⟩ | ⟨l1, b, l2, hdec, hpb, heq, hall⟩
      · by_cases hp : presencaDe a.1 = true
        · by_cases h0 : s.tempoInicioPresenca = 0
          · rw [hstep] at heq hne
            simp [hp, h0] at heq hne
            exact Or.inr ⟨[], a, resto, by simp, hp, by rw [heq], hall⟩
          · rw [hstep] at heq hne
            simp [hp, h0] at heq
            exact Or.inl ⟨heq, h0, by
              intro b hb
              rcases List.mem_cons.mp hb with hb | hb
              · rw [hb]; exact hp
              · exact hall b hb⟩
        · rw [hstep] at hne
          simp [hp] at hne
      · exact Or.inr ⟨a :: l1, b, l2, by rw [hdec]; rfl, hpb, heq, hall⟩

/-- C4: starting with a cleared dwell timer, if after a sequence of
samples the confirmation condition holds (timer recorded and at least
`tempoMinimoPresenca` elapsed at time `now`), then the timer was
recorded at a present sample, every sample after it showed presence,
and at least `tempoMinimoPresenca` elapsed since that sample's time;
and any single sample without presence resets the dwell timer to 0. -/
theorem confirmacao_requer_presenca_continua (amostras : List (Int × Nat))
    (s0 : SystemState) (now : Nat)
    (hstart : s0.tempoInicioPresenca = 0)
    (h : (runOcupacao amostras s0).tempoInicioPresenca ≠ 0)
    (hconf : tempoMinimoPresenca ≤
      now - (runOcupacao amostras s0).tempoInicioPresenca) :
    (∃ l1 a l2, amostras = l1 ++ a :: l2 ∧ presencaDe a.1 = true ∧
      (runOcupacao amostras s0).tempoInicioPresenca = a.2 ∧
      tempoMinimoPresenca ≤ now - a.2 ∧
      ∀ b ∈ l2, presencaDe b.1 = true) ∧
    (∀ (d : Int) (t : Nat) (s : SystemState), presencaDe d = false →
      (atualizarEstadoOcupacao d t s).1.tempoInicioPresenca = 0) := by
  constructor
  · rcases runOcupacao_tempoInicio amostras s0 h with
      ⟨_, hne, _⟩ | ⟨l1, a, l2, hdec, hpa, heq, hall⟩
    · exact absurd hstart hne
    · exact ⟨l1, a, l2, hdec, hpa, heq, by rw [← heq]; exact hconf, hall⟩
  · intro d t s hp
    rw [atualizarEstadoOcupacao_tempoInicio]
    simp [hp]

/-- C4 witness: two present samples at 100 ms and 200 ms record the
dwell timer at 100; at time 6000 the confirmation condition holds and
the theorem yields the present suffix. -/
theorem confirmacao_requer_presenca_continua_witness :
    (∃ l1 a l2,
      ([((10 : Int), 100), ((10 : Int), 200)] : List (Int × Nat)) =
        l1 ++ a :: l2 ∧ presencaDe a.1 = true ∧
      (runOcupacao [((10 : Int), 100), ((10 : Int), 200)]
        initState).tempoInicioPresenca = a.2 ∧
      tempoMinimoPresenca ≤ 6000 - a.2 ∧
      ∀ b ∈ l2, presencaDe b.1 = true) ∧
    (∀ (d : Int) (t : Nat) (s : SystemState), presencaDe d = false →
      (atualizarEstadoOcupacao d t s).1.tempoInicioPresenca = 0) :=
  confirmacao_requer_presenca_continua
    [((10 : Int), 100), ((10 : Int), 200)] initState 6000
    (by decide) (by decide) (by decide)

end RoomAuto
